import Mathlib

/-!
Shallow embedding of the marble transition engine of the isomarble-run
repository (src/lib/marble-state-machine.ts and src/lib/block-types.ts).

JavaScript numbers are modelled as `Int` (all engine arithmetic is integral),
strings as `String`, optional fields as `Option`, and arrays as `List`.
`Math.random()` returns a real number in `[0,1)`; every control-flow path of
the engine consumes at most one draw, so each engine function takes one
rational parameter `r` standing for that draw, and theorems that depend on the
draw assume `0 ≤ r < 1`.  `Math.floor` is `Int.floor`.  The JavaScript `%` on
the non-negative operands that occur in the engine agrees with `Int.tmod`
(truncated remainder), which is what we use.
-/

namespace IsoMarble

/-- block-types.ts: `type MomentumDirection = "+x" | "+y" | "-x" | "-y" | "0"`.
`px` is `"+x"`, `nx` is `"-x"`, `py` is `"+y"`, `ny` is `"-y"`, `zero` is `"0"`. -/
inductive MomentumDirection where
  | px
  | nx
  | py
  | ny
  | zero
deriving DecidableEq, Repr

/-- block-types.ts: `type MarbleStateType = "rolling" | "falling" | "behind"`. -/
inductive MarbleStateType where
  | rolling
  | falling
  | behind
deriving DecidableEq, Repr

/-- isometric.ts: `interface GridPosition { x: number; y: number }`. -/
structure GridPosition where
  x : Int
  y : Int
deriving DecidableEq, Repr

/-- marble-state-machine.ts: `interface MarbleStateMachine`. -/
structure MarbleStateMachine where
  id : String
  gridPosition : GridPosition
  state : MarbleStateType
  momentum : MomentumDirection
  rotation : Int
  hue : Option Nat
  behindCoordinates : Option GridPosition
deriving DecidableEq, Repr

/-- marble-state-machine.ts: `interface TrackPiece`. -/
structure TrackPiece where
  position : GridPosition
  blockName : String
  spritePath : String
  hue : Option Nat
deriving DecidableEq, Repr

/-- block-types.ts: the TypeScript union `MomentumDirection | MomentumDirection[]`
used for output momenta (a single direction, or an array to draw from). -/
inductive MomentumOutput where
  | single (m : MomentumDirection)
  | choice (ms : List MomentumDirection)
deriving DecidableEq, Repr

/-- block-types.ts: `interface ConditionalOutput`. -/
structure ConditionalOutput where
  inputMomentum : MomentumDirection
  outputMomentum : MomentumOutput
deriving DecidableEq, Repr

/-- block-types.ts: `interface BlockBehavior`.  `conditionalOutputs` is an
optional field (`?`) in the source, hence `Option`. -/
structure BlockBehavior where
  blockPath : String
  blockName : String
  defaultOutputMomentum : MomentumOutput
  conditionalOutputs : Option (List ConditionalOutput)
deriving DecidableEq, Repr

open MomentumDirection MomentumOutput in
/-- block-types.ts: `const BLOCK_TYPES: BlockBehavior[]`, transcribed entry by
entry in declaration order (spelling of block names preserved). -/
def BLOCK_TYPES : List BlockBehavior := [
  { blockPath := "/sprites/isometric-cubes/CrissCross.png"
    blockName := "CrissCross"
    defaultOutputMomentum := choice [px, nx, py, ny]
    conditionalOutputs := some [
      ⟨px, single px⟩,
      ⟨nx, single nx⟩,
      ⟨py, single py⟩,
      ⟨ny, single ny⟩] },
  { blockPath := "/sprites/isometric-cubes/StrightY.png"
    blockName := "StrightY"
    defaultOutputMomentum := choice [ny, py]
    conditionalOutputs := some [
      ⟨py, single py⟩,
      ⟨ny, single ny⟩] },
  { blockPath := "/sprites/isometric-cubes/StrightX.png"
    blockName := "StrightX"
    defaultOutputMomentum := choice [px, nx]
    conditionalOutputs := some [
      ⟨nx, single nx⟩,
      ⟨px, single px⟩] },
  { blockPath := "/sprites/isometric-cubes/LandingPlusY.png"
    blockName := "LandingPlusY"
    defaultOutputMomentum := single py
    conditionalOutputs := some [] },
  { blockPath := "/sprites/isometric-cubes/LandingMinusY.png"
    blockName := "LandingMinusY"
    defaultOutputMomentum := single ny
    conditionalOutputs := some [] },
  { blockPath := "/sprites/isometric-cubes/LandingMinusX.png"
    blockName := "LandingMinusX"
    defaultOutputMomentum := single nx
    conditionalOutputs := some [] },
  { blockPath := "/sprites/isometric-cubes/LandingPlusX.png"
    blockName := "LandingPlusX"
    defaultOutputMomentum := single px
    conditionalOutputs := some [] },
  { blockPath := "/sprites/isometric-cubes/TurnXY.png"
    blockName := "TurnXY"
    defaultOutputMomentum := choice [px, py]
    conditionalOutputs := some [
      ⟨nx, single py⟩,
      ⟨ny, single px⟩] },
  { blockPath := "/sprites/isometric-cubes/TurnXMinusY.png"
    blockName := "TurnXMinusY"
    defaultOutputMomentum := choice [px, ny]
    conditionalOutputs := some [
      ⟨nx, single ny⟩,
      ⟨py, single px⟩] },
  { blockPath := "/sprites/isometric-cubes/TurnYMinusX.png"
    blockName := "TurnYMinusX"
    defaultOutputMomentum := choice [py, nx]
    conditionalOutputs := some [
      ⟨ny, single nx⟩,
      ⟨px, single py⟩] },
  { blockPath := "/sprites/isometric-cubes/TurnMinusXMinusY.png"
    blockName := "TurnMinusXMinusY"
    defaultOutputMomentum := choice [nx, ny]
    conditionalOutputs := some [
      ⟨px, single ny⟩,
      ⟨py, single nx⟩] },
  { blockPath := "/sprites/isometric-cubes/TPlusX.png"
    blockName := "TPlusX"
    defaultOutputMomentum := choice [px, ny, py]
    conditionalOutputs := some [
      ⟨nx, choice [ny, py]⟩,
      ⟨ny, single ny⟩,
      ⟨py, single py⟩] },
  { blockPath := "/sprites/isometric-cubes/TMinusX.png"
    blockName := "TMinusX"
    defaultOutputMomentum := choice [nx, ny, py]
    conditionalOutputs := some [
      ⟨px, choice [ny, py]⟩,
      ⟨ny, single ny⟩,
      ⟨py, single py⟩] },
  { blockPath := "/sprites/isometric-cubes/TPlusY.png"
    blockName := "TPlusY"
    defaultOutputMomentum := choice [py, nx, px]
    conditionalOutputs := some [
      ⟨ny, choice [nx, px]⟩,
      ⟨nx, single nx⟩,
      ⟨px, single px⟩] },
  { blockPath := "/sprites/isometric-cubes/TMinusY.png"
    blockName := "TMinusY"
    defaultOutputMomentum := choice [ny, nx, px]
    conditionalOutputs := some [
      ⟨py, choice [nx, px]⟩,
      ⟨nx, single nx⟩,
      ⟨px, single px⟩] }
]

/-- block-types.ts `getBlockBehavior`:
`BLOCK_TYPES.find((block) => block.blockName === blockName)`. -/
def getBlockBehavior (blockName : String) : Option BlockBehavior :=
  BLOCK_TYPES.find? (fun block => block.blockName == blockName)

/-- block-types.ts `momentumToVelocity`: momentum direction to unit velocity. -/
def momentumToVelocity (momentum : MomentumDirection) : GridPosition :=
  match momentum with
  | MomentumDirection.px => ⟨1, 0⟩
  | MomentumDirection.nx => ⟨-1, 0⟩
  | MomentumDirection.py => ⟨0, 1⟩
  | MomentumDirection.ny => ⟨0, -1⟩
  | MomentumDirection.zero => ⟨0, 0⟩

/-- marble-state-machine.ts `wrapGridPosition`, per coordinate.  The source
repeats this identical block once for `x` and once for `y`; we factor the
coordinate logic.  Both `%` operands are non-negative in the branches where
they are evaluated, matching JavaScript truncated remainder (`Int.tmod`). -/
def wrapCoord (c : Int) : Int :=
  let minBound : Int := -10
  let maxBound : Int := 10
  let gridSize : Int := maxBound - minBound + 1
  if c > maxBound then
    minBound + Int.tmod (c - minBound) gridSize
  else if c < minBound then
    maxBound - Int.tmod (minBound - c - 1) gridSize
  else
    c

/-- marble-state-machine.ts `wrapGridPosition`: wrap both coordinates into the
`[-10, 10]` board range. -/
def wrapGridPosition (position : GridPosition) : GridPosition :=
  ⟨wrapCoord position.x, wrapCoord position.y⟩

/-- marble-state-machine.ts `getTrackAt`:
`trackPieces.find((piece) => piece.position.x === position.x && piece.position.y === position.y) || null`. -/
def getTrackAt (position : GridPosition) (trackPieces : List TrackPiece) :
    Option TrackPiece :=
  trackPieces.find? (fun piece =>
    piece.position.x == position.x && piece.position.y == position.y)

/-- marble-state-machine.ts `isMarbleOccluded`: the six occlusion offsets, in
source order. -/
def occlusionOffsets : List GridPosition :=
  [⟨-1, 0⟩, ⟨0, -1⟩, ⟨-1, -1⟩, ⟨-2, -1⟩, ⟨-1, -2⟩, ⟨-2, -2⟩]

/-- marble-state-machine.ts `isMarbleOccluded`: true when a track piece sits at
any of the six offsets from the marble position (offset `(0,0)` excluded). -/
def isMarbleOccluded (marblePosition : GridPosition)
    (trackPieces : List TrackPiece) : Bool :=
  occlusionOffsets.any (fun offset =>
    (getTrackAt ⟨marblePosition.x + offset.x, marblePosition.y + offset.y⟩
      trackPieces).isSome)

/-- marble-state-machine.ts: `30 + Math.floor(Math.random() * 111)`, the hue
shift applied on a transition into the falling state (`r` is the draw). -/
def hueIncrement (r : ℚ) : Nat :=
  30 + (Int.floor (r * 111)).toNat

/-- block-types.ts / marble-state-machine.ts: resolve a
`MomentumDirection | MomentumDirection[]` value; for an array the source picks
index `Math.floor(Math.random() * length)` (out-of-range access would yield
`undefined` in JavaScript; `getD` supplies `"0"`, and all uses below are in
range for `0 ≤ r < 1`).  The source inlines this twice inside
`applyBlockBehavior`; we factor it. -/
def resolveMomentumOutput (r : ℚ) (output : MomentumOutput) : MomentumDirection :=
  match output with
  | MomentumOutput.choice ms =>
      let randomIndex := (Int.floor (r * ms.length)).toNat
      ms.getD randomIndex MomentumDirection.zero
  | MomentumOutput.single m => m

/-- Result record of `applyBlockBehavior`
(`{ outputState, outputMomentum }` in the source). -/
structure BehaviorResult where
  outputState : MarbleStateType
  outputMomentum : MomentumDirection
deriving DecidableEq, Repr

/-- marble-state-machine.ts `applyBlockBehavior`: scan `conditionalOutputs` in
declaration order and return on the first entry whose `inputMomentum` matches
(the source's for-loop with early return is `List.find?`); otherwise fall back
to `defaultOutputMomentum`.  Output state is always `rolling`. -/
def applyBlockBehavior (r : ℚ) (inputMomentum : MomentumDirection)
    (blockBehavior : BlockBehavior) : BehaviorResult :=
  let conditionalMatch : Option ConditionalOutput :=
    match blockBehavior.conditionalOutputs with
    | some conditionals =>
        conditionals.find? (fun conditional =>
          conditional.inputMomentum == inputMomentum)
    | none => none
  match conditionalMatch with
  | some conditional =>
      { outputState := MarbleStateType.rolling
        outputMomentum := resolveMomentumOutput r conditional.outputMomentum }
  | none =>
      { outputState := MarbleStateType.rolling
        outputMomentum := resolveMomentumOutput r blockBehavior.defaultOutputMomentum }

/-- marble-state-machine.ts `moveMarbleOneStep`: advance one grid step in the
given momentum direction (no wrapping here). -/
def moveMarbleOneStep (marble : MarbleStateMachine)
    (momentum : MomentumDirection) : GridPosition :=
  let velocity := momentumToVelocity momentum
  ⟨marble.gridPosition.x + velocity.x, marble.gridPosition.y + velocity.y⟩

/-- marble-state-machine.ts `createMarble`.  `now` stands for `Date.now()`
(only the marble id depends on it) and `r` for the `Math.random()` draw used
in `Math.floor(Math.random() * 360)`. -/
def createMarble (now : Nat) (r : ℚ) (position : GridPosition) :
    MarbleStateMachine :=
  { id := "marble-" ++ toString now
    gridPosition := ⟨position.x, position.y⟩
    state := MarbleStateType.falling
    momentum := MomentumDirection.zero
    rotation := 0
    hue := some (Int.floor (r * 360)).toNat
    behindCoordinates := none }

/-- marble-state-machine.ts `updateMarbleStateMachine`: one step of the marble
state machine.  `r` is the (at most one) `Math.random()` draw the executed
path consumes.  The `console.log` diagnostic in the backward roll-off branch
is a side effect with no bearing on the returned state and is omitted. -/
def updateMarbleStateMachine (r : ℚ) (marble : MarbleStateMachine)
    (trackPieces : List TrackPiece) : MarbleStateMachine :=
  if marble.state = MarbleStateType.behind then
    -- Handle behind state logic: move +1 in both X and Y, stay at momentum 0,
    -- then check occlusion at the new position.
    let newPosition : GridPosition :=
      ⟨marble.gridPosition.x + 1, marble.gridPosition.y + 1⟩
    let wrapped := wrapGridPosition newPosition
    if !(isMarbleOccluded wrapped trackPieces) then
      { marble with
          state := MarbleStateType.falling
          momentum := MomentumDirection.zero
          gridPosition := wrapped
          hue := some ((marble.hue.getD 0 + hueIncrement r) % 360)
          behindCoordinates := none }
    else
      { marble with
          state := MarbleStateType.behind
          momentum := MomentumDirection.zero
          gridPosition := wrapped }
  else
    match getTrackAt marble.gridPosition trackPieces with
    | some currentTrack =>
        if marble.state = MarbleStateType.behind then
          -- Source lines 90-98: behind marbles on a track piece keep falling
          -- behind (unreachable after the early return above).
          { marble with
              state := MarbleStateType.behind
              gridPosition := wrapGridPosition
                ⟨marble.gridPosition.x + 1, marble.gridPosition.y + 1⟩
              momentum := MomentumDirection.zero }
        else
          match getBlockBehavior currentTrack.blockName with
          | some blockBehavior =>
              let result := applyBlockBehavior r marble.momentum blockBehavior
              let newPosition := moveMarbleOneStep marble result.outputMomentum
              let newRotation :=
                if result.outputState = MarbleStateType.rolling then
                  if marble.rotation + 15 ≥ 360 then marble.rotation + 15 - 360
                  else marble.rotation + 15
                else marble.rotation
              { marble with
                  state := result.outputState
                  momentum := result.outputMomentum
                  gridPosition := wrapGridPosition newPosition
                  rotation := newRotation }
          | none =>
              -- `newMarble.state = "rolling"` was assigned before the
              -- `if (blockBehavior)` guard; nothing else changes.
              { marble with state := MarbleStateType.rolling }
    | none =>
        let wasRollingWithNegativeMomentum : Bool :=
          marble.state == MarbleStateType.rolling &&
            (marble.momentum == MomentumDirection.nx ||
              marble.momentum == MomentumDirection.ny)
        if wasRollingWithNegativeMomentum then
          { marble with
              state := MarbleStateType.behind
              behindCoordinates :=
                some ⟨marble.gridPosition.x, marble.gridPosition.y⟩
              momentum := MomentumDirection.zero
              gridPosition := wrapGridPosition
                ⟨marble.gridPosition.x + 1, marble.gridPosition.y + 1⟩ }
        else
          let newHue :=
            if marble.state ≠ MarbleStateType.falling then
              some ((marble.hue.getD 0 + hueIncrement r) % 360)
            else marble.hue
          { marble with
              state := MarbleStateType.falling
              behindCoordinates := none
              hue := newHue
              momentum := MomentumDirection.zero
              gridPosition := wrapGridPosition
                ⟨marble.gridPosition.x + 1, marble.gridPosition.y + 1⟩ }

/-- Control-flow mirror of `updateMarbleStateMachine` that returns `true`
exactly when execution would enter the source's lines 90-98 branch (a marble
found both in the behind state and on a track piece). -/
def behindOnTrackBranchReached (marble : MarbleStateMachine)
    (trackPieces : List TrackPiece) : Bool :=
  if marble.state = MarbleStateType.behind then
    false
  else
    match getTrackAt marble.gridPosition trackPieces with
    | some _ => marble.state = MarbleStateType.behind
    | none => false

/-! ## Helper lemmas -/

/-- Behaviour of `wrapCoord` on the one-step neighbourhood of the board:
wrapped values stay in `[-10, 10]`, differ from the input by a multiple of 21,
and an overflowing coordinate comes back in from the opposite side. -/
theorem wrapCoord_spec (c : Int) (h1 : -11 ≤ c) (h2 : c ≤ 11) :
    (-10 ≤ wrapCoord c ∧ wrapCoord c ≤ 10) ∧ (wrapCoord c - c) % 21 = 0 ∧
      (10 < c → wrapCoord c = c - 21) ∧ (c < -10 → wrapCoord c = c + 21) := by
  interval_cases c <;> decide

/-- The hue shift drawn on a falling transition lies in `[30, 140]`. -/
theorem hueIncrement_bounds (r : ℚ) (h0 : 0 ≤ r) (h1 : r < 1) :
    30 ≤ hueIncrement r ∧ hueIncrement r ≤ 140 := by
  unfold hueIncrement
  have hfl : (0 : Int) ≤ Int.floor (r * 111) := by
    apply Int.floor_nonneg.mpr
    positivity
  have hfu : Int.floor (r * 111) < 111 := by
    apply Int.floor_lt.mpr
    push_cast
    linarith
  omega

/-- `List.find?` returns the first element satisfying the predicate: if every
element of `pre` fails the predicate and `c` satisfies it, the scan of
`pre ++ c :: post` returns `c`. -/
theorem find?_first_match {α : Type} (p : α → Bool) (pre post : List α) (c : α)
    (hpre : ∀ a ∈ pre, p a = false) (hc : p c = true) :
    (pre ++ c :: post).find? p = some c := by
  induction pre with
  | nil => simp [List.find?_cons_of_pos, hc]
  | cons a as ih =>
      rw [List.cons_append,
        List.find?_cons_of_neg _ (by simp [hpre a (by simp)])]
      exact ih (fun x hx => hpre x (by simp [hx]))

/-- `applyBlockBehavior` always reports the `rolling` output state. -/
theorem applyBlockBehavior_outputState (r : ℚ) (inputMomentum : MomentumDirection)
    (blockBehavior : BlockBehavior) :
    (applyBlockBehavior r inputMomentum blockBehavior).outputState =
      MarbleStateType.rolling := by
  unfold applyBlockBehavior
  split
  · rename_i conditionals heq
    cases h2 : conditionals.find?
        (fun conditional => conditional.inputMomentum == inputMomentum) <;>
      simp [h2]
  · rfl

/-- The step vectors named by the wrap invariant: the gravity vector
`(+1, +1)` together with the unit velocity of each momentum value. -/
def stepVectors : List GridPosition :=
  ⟨1, 1⟩ :: [MomentumDirection.px, MomentumDirection.nx, MomentumDirection.py,
    MomentumDirection.ny, MomentumDirection.zero].map momentumToVelocity

/-! ## Claim theorems -/

/-- Claim C3: starting from a position with both coordinates in `[-10, 10]`
and moving by `(+1, +1)` or by any momentum unit vector, the wrapped position
again lies in `[-10, 10]`; the wrapped coordinate differs from the unwrapped
one by a multiple of 21, a coordinate above the bound wraps to the bottom of
the range, and a coordinate below the bound wraps to the top. -/
theorem wrap_invariant (p : GridPosition) (hx1 : -10 ≤ p.x) (hx2 : p.x ≤ 10)
    (hy1 : -10 ≤ p.y) (hy2 : p.y ≤ 10) (v : GridPosition)
    (hv : v ∈ stepVectors) :
    (-10 ≤ (wrapGridPosition ⟨p.x + v.x, p.y + v.y⟩).x ∧
      (wrapGridPosition ⟨p.x + v.x, p.y + v.y⟩).x ≤ 10 ∧
      -10 ≤ (wrapGridPosition ⟨p.x + v.x, p.y + v.y⟩).y ∧
      (wrapGridPosition ⟨p.x + v.x, p.y + v.y⟩).y ≤ 10) ∧
    ((wrapGridPosition ⟨p.x + v.x, p.y + v.y⟩).x - (p.x + v.x)) % 21 = 0 ∧
    ((wrapGridPosition ⟨p.x + v.x, p.y + v.y⟩).y - (p.y + v.y)) % 21 = 0 ∧
    (10 < p.x + v.x →
      (wrapGridPosition ⟨p.x + v.x, p.y + v.y⟩).x = p.x + v.x - 21) ∧
    (p.x + v.x < -10 →
      (wrapGridPosition ⟨p.x + v.x, p.y + v.y⟩).x = p.x + v.x + 21) ∧
    (10 < p.y + v.y →
      (wrapGridPosition ⟨p.x + v.x, p.y + v.y⟩).y = p.y + v.y - 21) ∧
    (p.y + v.y < -10 →
      (wrapGridPosition ⟨p.x + v.x, p.y + v.y⟩).y = p.y + v.y + 21) := by
  have hv2 : v ∈ ([⟨1, 1⟩, ⟨1, 0⟩, ⟨-1, 0⟩, ⟨0, 1⟩, ⟨0, -1⟩, ⟨0, 0⟩] :
      List GridPosition) := by
    simpa [stepVectors, momentumToVelocity] using hv
  have hbound : -11 ≤ p.x + v.x ∧ p.x + v.x ≤ 11 ∧
      -11 ≤ p.y + v.y ∧ p.y + v.y ≤ 11 := by
    fin_cases hv2 <;> dsimp only <;> omega
  obtain ⟨ha, hb2, hc, hd⟩ := hbound
  have Hx := wrapCoord_spec (p.x + v.x) ha hb2
  have Hy := wrapCoord_spec (p.y + v.y) hc hd
  have hqx : (wrapGridPosition ⟨p.x + v.x, p.y + v.y⟩).x = wrapCoord (p.x + v.x) := rfl
  have hqy : (wrapGridPosition ⟨p.x + v.x, p.y + v.y⟩).y = wrapCoord (p.y + v.y) := rfl
  rw [hqx, hqy]
  exact ⟨⟨Hx.1.1, Hx.1.2, Hy.1.1, Hy.1.2⟩, Hx.2.1, Hy.2.1,
    Hx.2.2.1, Hx.2.2.2, Hy.2.2.1, Hy.2.2.2⟩

/-- Claim C3 witness: instantiation at `p = (10, -10)` with the gravity
vector `(+1, +1)`. -/
theorem wrap_invariant_witness :
    (-10 ≤ (wrapGridPosition ⟨(10 : Int) + 1, (-10 : Int) + 1⟩).x ∧
      (wrapGridPosition ⟨(10 : Int) + 1, (-10 : Int) + 1⟩).x ≤ 10 ∧
      -10 ≤ (wrapGridPosition ⟨(10 : Int) + 1, (-10 : Int) + 1⟩).y ∧
      (wrapGridPosition ⟨(10 : Int) + 1, (-10 : Int) + 1⟩).y ≤ 10) ∧
    ((wrapGridPosition ⟨(10 : Int) + 1, (-10 : Int) + 1⟩).x - (10 + 1)) % 21 = 0 ∧
    ((wrapGridPosition ⟨(10 : Int) + 1, (-10 : Int) + 1⟩).y - (-10 + 1)) % 21 = 0 ∧
    (10 < (10 : Int) + 1 →
      (wrapGridPosition ⟨(10 : Int) + 1, (-10 : Int) + 1⟩).x = 10 + 1 - 21) ∧
    ((10 : Int) + 1 < -10 →
      (wrapGridPosition ⟨(10 : Int) + 1, (-10 : Int) + 1⟩).x = 10 + 1 + 21) ∧
    (10 < (-10 : Int) + 1 →
      (wrapGridPosition ⟨(10 : Int) + 1, (-10 : Int) + 1⟩).y = -10 + 1 - 21) ∧
    ((-10 : Int) + 1 < -10 →
      (wrapGridPosition ⟨(10 : Int) + 1, (-10 : Int) + 1⟩).y = -10 + 1 + 21) :=
  wrap_invariant ⟨10, -10⟩ (by decide) (by decide) (by decide) (by decide)
    ⟨1, 1⟩ (by simp [stepVectors])

/-- Claim C7: a position is occluded exactly when a track piece exists at one
of the six relative offsets `(-1,0), (0,-1), (-1,-1), (-2,-1), (-1,-2),
(-2,-2)`; and since `(0,0)` is not among them, a marble exactly at a tile's
position is never occluded by that tile alone. -/
theorem occlusion_characterization (p : GridPosition)
    (trackPieces : List TrackPiece) :
    (isMarbleOccluded p trackPieces = true ↔
      ∃ o ∈ ([⟨-1, 0⟩, ⟨0, -1⟩, ⟨-1, -1⟩, ⟨-2, -1⟩, ⟨-1, -2⟩, ⟨-2, -2⟩] :
          List GridPosition),
        (getTrackAt ⟨p.x + o.x, p.y + o.y⟩ trackPieces).isSome = true) ∧
    (∀ t : TrackPiece, t.position = p →
      isMarbleOccluded p [t] = false) := by
  constructor
  · simp only [isMarbleOccluded, List.any_eq_true, occlusionOffsets]
  · intro t ht
    subst ht
    rw [Bool.eq_false_iff]
    intro hocc
    simp only [isMarbleOccluded, List.any_eq_true, occlusionOffsets] at hocc
    obtain ⟨o, ho, hsome⟩ := hocc
    simp only [getTrackAt, List.find?_isSome] at hsome
    obtain ⟨t2, ht2, hpred⟩ := hsome
    simp only [List.mem_singleton] at ht2
    subst ht2
    simp only [Bool.and_eq_true, beq_iff_eq] at hpred
    simp only [List.mem_cons, List.not_mem_nil, or_false] at ho
    rcases ho with h | h | h | h | h | h <;> subst h <;>
      (dsimp only at hpred; omega)

/-- Claim C7 witness: at `p = (0,0)` with a single track piece at `(-1,0)` the
occlusion test is positive, and a track piece exactly at `(0,0)` never
occludes `(0,0)` on its own. -/
theorem occlusion_characterization_witness :
    ((isMarbleOccluded ⟨0, 0⟩
        [⟨⟨-1, 0⟩, "StrightX", "/sprites/isometric-cubes/StrightX.png", none⟩] = true ↔
      ∃ o ∈ ([⟨-1, 0⟩, ⟨0, -1⟩, ⟨-1, -1⟩, ⟨-2, -1⟩, ⟨-1, -2⟩, ⟨-2, -2⟩] :
          List GridPosition),
        (getTrackAt ⟨(0 : Int) + o.x, (0 : Int) + o.y⟩
          [⟨⟨-1, 0⟩, "StrightX", "/sprites/isometric-cubes/StrightX.png", none⟩]).isSome = true)) ∧
    isMarbleOccluded ⟨0, 0⟩
      [⟨⟨0, 0⟩, "StrightX", "/sprites/isometric-cubes/StrightX.png", none⟩] = false :=
  ⟨(occlusion_characterization ⟨0, 0⟩
      [⟨⟨-1, 0⟩, "StrightX", "/sprites/isometric-cubes/StrightX.png", none⟩]).1,
   (occlusion_characterization ⟨0, 0⟩ []).2
      ⟨⟨0, 0⟩, "StrightX", "/sprites/isometric-cubes/StrightX.png", none⟩ rfl⟩

/-- Claim C8: the branch of `updateMarbleStateMachine` that would handle a
marble found both in the behind state and on a track piece is unreachable:
the control-flow mirror `behindOnTrackBranchReached` is false for every
input, because the behind case returns before any tile lookup. -/
theorem behind_on_track_branch_unreachable (marble : MarbleStateMachine)
    (trackPieces : List TrackPiece) :
    behindOnTrackBranchReached marble trackPieces = false := by
  unfold behindOnTrackBranchReached
  by_cases hb : marble.state = MarbleStateType.behind
  · rw [if_pos hb]
  · rw [if_neg hb]
    cases getTrackAt marble.gridPosition trackPieces <;> simp [hb]

/-- Claim C9: `createMarble` returns a marble in the falling state with
momentum 0, rotation 0, the given grid position, and an initial hue in
`[0, 360)`. -/
theorem createMarble_spec (now : Nat) (r : ℚ) (position : GridPosition)
    (_h0 : 0 ≤ r) (h1 : r < 1) :
    (createMarble now r position).state = MarbleStateType.falling ∧
    (createMarble now r position).momentum = MomentumDirection.zero ∧
    (createMarble now r position).rotation = 0 ∧
    (createMarble now r position).gridPosition = position ∧
    ∃ h : Nat, (createMarble now r position).hue = some h ∧ h < 360 := by
  refine ⟨rfl, rfl, rfl, rfl, (Int.floor (r * 360)).toNat, rfl, ?_⟩
  have hlt : Int.floor (r * 360) < 360 := by
    apply Int.floor_lt.mpr
    push_cast
    linarith
  omega

/-- Claim C9 witness: instantiation at `now = 5`, `r = 1/2`,
`position = (2,3)`. -/
theorem createMarble_spec_witness :
    (0 : ℚ) ≤ 1 / 2 ∧ (1 / 2 : ℚ) < 1 ∧
    ((createMarble 5 (1 / 2) ⟨2, 3⟩).state = MarbleStateType.falling ∧
     (createMarble 5 (1 / 2) ⟨2, 3⟩).momentum = MomentumDirection.zero ∧
     (createMarble 5 (1 / 2) ⟨2, 3⟩).rotation = 0 ∧
     (createMarble 5 (1 / 2) ⟨2, 3⟩).gridPosition = ⟨2, 3⟩ ∧
     ∃ h : Nat, (createMarble 5 (1 / 2) ⟨2, 3⟩).hue = some h ∧ h < 360) :=
  ⟨by norm_num, by norm_num,
    createMarble_spec 5 (1 / 2) ⟨2, 3⟩ (by norm_num) (by norm_num)⟩

/-- The state invariant of the spec: momentum is 0 whenever the state is
falling or behind, and `behindCoordinates` is defined iff the state is
behind. -/
def marbleInvariant (m : MarbleStateMachine) : Prop :=
  ((m.state = MarbleStateType.falling ∨ m.state = MarbleStateType.behind) →
    m.momentum = MomentumDirection.zero) ∧
  (m.behindCoordinates.isSome = true ↔ m.state = MarbleStateType.behind)

/-- Claim C2: `updateMarbleStateMachine` preserves the state invariant for
every marble, tile collection and random draw. -/
theorem step_preserves_invariant (r : ℚ) (marble : MarbleStateMachine)
    (trackPieces : List TrackPiece) (h : marbleInvariant marble) :
    marbleInvariant (updateMarbleStateMachine r marble trackPieces) := by
  obtain ⟨hmom, hbc⟩ := h
  unfold updateMarbleStateMachine
  by_cases hb : marble.state = MarbleStateType.behind
  · rw [if_pos hb]
    by_cases hocc : isMarbleOccluded
        (wrapGridPosition ⟨marble.gridPosition.x + 1, marble.gridPosition.y + 1⟩)
        trackPieces = true
    · simp [marbleInvariant, hocc, hbc, hb]
    · simp only [Bool.not_eq_true] at hocc
      simp [marbleInvariant, hocc]
  · rw [if_neg hb]
    split
    · rw [if_neg hb]
      split
      · simp [marbleInvariant, applyBlockBehavior_outputState, hbc, hb]
      · simp [marbleInvariant, hbc, hb]
    · by_cases hroll : marble.state = MarbleStateType.rolling
      · by_cases hneg : marble.momentum = MomentumDirection.nx ∨
            marble.momentum = MomentumDirection.ny
        · rcases hneg with hn | hn <;> simp [marbleInvariant, hroll, hn]
        · push_neg at hneg
          simp [marbleInvariant, hroll, hneg.1, hneg.2]
      · simp [marbleInvariant, hroll]

/-- Claim C2 witness: a falling marble at `(5, 5)` with no tiles satisfies the
invariant, and so does its successor. -/
theorem step_preserves_invariant_witness :
    marbleInvariant
      ⟨"m", ⟨5, 5⟩, MarbleStateType.falling, MomentumDirection.zero, 0,
        some 100, none⟩ ∧
    marbleInvariant (updateMarbleStateMachine 0
      ⟨"m", ⟨5, 5⟩, MarbleStateType.falling, MomentumDirection.zero, 0,
        some 100, none⟩ []) :=
  ⟨by unfold marbleInvariant; decide,
   step_preserves_invariant 0
     ⟨"m", ⟨5, 5⟩, MarbleStateType.falling, MomentumDirection.zero, 0,
       some 100, none⟩ [] (by unfold marbleInvariant; decide)⟩

/-- Claim C4: when some conditional rule matches the input momentum, the first
matching rule (in declaration order) decides the output and the default set is
never consulted; the output state is rolling and the output momentum is the
resolution of that rule's output. -/
theorem conditional_precedence (r : ℚ) (inputMomentum : MomentumDirection)
    (blockBehavior : BlockBehavior) (pre post : List ConditionalOutput)
    (cond : ConditionalOutput)
    (hco : blockBehavior.conditionalOutputs = some (pre ++ cond :: post))
    (hpre : ∀ c ∈ pre, c.inputMomentum ≠ inputMomentum)
    (hcond : cond.inputMomentum = inputMomentum) :
    applyBlockBehavior r inputMomentum blockBehavior =
      { outputState := MarbleStateType.rolling
        outputMomentum := resolveMomentumOutput r cond.outputMomentum } := by
  unfold applyBlockBehavior
  have hfind : (pre ++ cond :: post).find?
      (fun c => c.inputMomentum == inputMomentum) = some cond := by
    apply find?_first_match
    · intro a ha
      simp only [beq_eq_false_iff_ne, ne_eq]
      exact hpre a ha
    · simp [hcond]
  simp [hco, hfind]

/-- Claim C4 witness: a behavior shaped like the StrightX tile (conditional
`+x → +x` after a non-matching `-x` rule, default set `{+x, -x}`), entered
with momentum `+x`, deterministically produces the conditional's output. -/
theorem conditional_precedence_witness :
    applyBlockBehavior 0 MomentumDirection.px
      ⟨"/sprites/isometric-cubes/StrightX.png", "StrightX",
        MomentumOutput.choice [MomentumDirection.px, MomentumDirection.nx],
        some [⟨MomentumDirection.nx, MomentumOutput.single MomentumDirection.nx⟩,
          ⟨MomentumDirection.px, MomentumOutput.single MomentumDirection.px⟩]⟩ =
      { outputState := MarbleStateType.rolling
        outputMomentum := resolveMomentumOutput 0
          (MomentumOutput.single MomentumDirection.px) } :=
  conditional_precedence 0 MomentumDirection.px _
    [⟨MomentumDirection.nx, MomentumOutput.single MomentumDirection.nx⟩] []
    ⟨MomentumDirection.px, MomentumOutput.single MomentumDirection.px⟩
    rfl (by decide) rfl

/-- Claim C5: a rolling marble with negative momentum (`-x` or `-y`) and no
tile at its current position enters the behind state: momentum 0,
`behindCoordinates` set to the pre-move position, and the position advanced
by `(+1, +1)` toroidally wrapped (all other fields unchanged). -/
theorem backward_rolloff (r : ℚ) (marble : MarbleStateMachine)
    (trackPieces : List TrackPiece)
    (hstate : marble.state = MarbleStateType.rolling)
    (hmom : marble.momentum = MomentumDirection.nx ∨
      marble.momentum = MomentumDirection.ny)
    (htrack : getTrackAt marble.gridPosition trackPieces = none) :
    updateMarbleStateMachine r marble trackPieces =
      { marble with
          state := MarbleStateType.behind
          momentum := MomentumDirection.zero
          behindCoordinates := some marble.gridPosition
          gridPosition := wrapGridPosition
            ⟨marble.gridPosition.x + 1, marble.gridPosition.y + 1⟩ } := by
  unfold updateMarbleStateMachine
  rcases hmom with h | h <;> simp [hstate, h, htrack]

/-- Claim C5 witness: a rolling marble with momentum `-x` at `(3, 4)` and no
tiles at all. -/
theorem backward_rolloff_witness :
    updateMarbleStateMachine 0
      ⟨"m", ⟨3, 4⟩, MarbleStateType.rolling, MomentumDirection.nx, 30,
        some 7, none⟩ [] =
      { (⟨"m", ⟨3, 4⟩, MarbleStateType.rolling, MomentumDirection.nx, 30,
          some 7, none⟩ : MarbleStateMachine) with
          state := MarbleStateType.behind
          momentum := MomentumDirection.zero
          behindCoordinates := some ⟨3, 4⟩
          gridPosition := wrapGridPosition ⟨(3 : Int) + 1, (4 : Int) + 1⟩ } :=
  backward_rolloff 0
    ⟨"m", ⟨3, 4⟩, MarbleStateType.rolling, MomentumDirection.nx, 30,
      some 7, none⟩ [] rfl (Or.inl rfl) rfl

/-- Claim C6: a behind marble advances by `(+1, +1)` wrapped with momentum 0;
if the new position is not occluded it transitions to falling with
`behindCoordinates` cleared and its hue shifted by an increment in
`[30, 140]` modulo 360, and if it is still occluded it stays behind at the
new position with `behindCoordinates` (and hue) unchanged. -/
theorem behind_step (r : ℚ) (marble : MarbleStateMachine)
    (trackPieces : List TrackPiece) (h0 : 0 ≤ r) (h1 : r < 1)
    (hb : marble.state = MarbleStateType.behind) :
    (isMarbleOccluded (wrapGridPosition ⟨marble.gridPosition.x + 1,
        marble.gridPosition.y + 1⟩) trackPieces = false →
      updateMarbleStateMachine r marble trackPieces =
        { marble with
            state := MarbleStateType.falling
            momentum := MomentumDirection.zero
            gridPosition := wrapGridPosition ⟨marble.gridPosition.x + 1,
              marble.gridPosition.y + 1⟩
            hue := some ((marble.hue.getD 0 + hueIncrement r) % 360)
            behindCoordinates := none } ∧
      30 ≤ hueIncrement r ∧ hueIncrement r ≤ 140) ∧
    (isMarbleOccluded (wrapGridPosition ⟨marble.gridPosition.x + 1,
        marble.gridPosition.y + 1⟩) trackPieces = true →
      updateMarbleStateMachine r marble trackPieces =
        { marble with
            state := MarbleStateType.behind
            momentum := MomentumDirection.zero
            gridPosition := wrapGridPosition ⟨marble.gridPosition.x + 1,
              marble.gridPosition.y + 1⟩ }) := by
  constructor
  · intro hocc
    refine ⟨?_, hueIncrement_bounds r h0 h1⟩
    unfold updateMarbleStateMachine
    rw [if_pos hb]
    simp [hocc]
  · intro hocc
    unfold updateMarbleStateMachine
    rw [if_pos hb]
    simp [hocc]

/-- Claim C6 witness: a behind marble at `(0, 0)` with no tiles re-emerges at
`(1, 1)` as falling with a hue shift of 30 (the draw `r = 0`). -/
theorem behind_step_witness :
    updateMarbleStateMachine 0
      ⟨"m", ⟨0, 0⟩, MarbleStateType.behind, MomentumDirection.zero, 0,
        some 100, some ⟨0, 0⟩⟩ [] =
      { (⟨"m", ⟨0, 0⟩, MarbleStateType.behind, MomentumDirection.zero, 0,
          some 100, some ⟨0, 0⟩⟩ : MarbleStateMachine) with
          state := MarbleStateType.falling
          momentum := MomentumDirection.zero
          gridPosition := wrapGridPosition ⟨(0 : Int) + 1, (0 : Int) + 1⟩
          hue := some (((some 100).getD 0 + hueIncrement 0) % 360)
          behindCoordinates := none } ∧
    30 ≤ hueIncrement 0 ∧ hueIncrement 0 ≤ 140 :=
  (behind_step 0
    ⟨"m", ⟨0, 0⟩, MarbleStateType.behind, MomentumDirection.zero, 0,
      some 100, some ⟨0, 0⟩⟩ [] (by norm_num) (by norm_num) rfl).1 (by decide)

/-- Claim C1 counterexample: a falling marble at `(0, 0)` on a tile whose
`blockName` has no registry entry does not pass through as if falling (which
would move it to `(1, 1)` in state falling): it stays at `(0, 0)` and its
state becomes rolling. -/
theorem unknown_block_counterexample :
    getBlockBehavior "UnknownBlock" = none ∧
    (updateMarbleStateMachine 0
      ⟨"m", ⟨0, 0⟩, MarbleStateType.falling, MomentumDirection.zero, 0,
        some 100, none⟩
      [⟨⟨0, 0⟩, "UnknownBlock", "", none⟩]).state = MarbleStateType.rolling ∧
    (updateMarbleStateMachine 0
      ⟨"m", ⟨0, 0⟩, MarbleStateType.falling, MomentumDirection.zero, 0,
        some 100, none⟩
      [⟨⟨0, 0⟩, "UnknownBlock", "", none⟩]).gridPosition = ⟨0, 0⟩ := by
  decide

/-- Claim C1 (amended): for every marble not in the behind state whose current
position holds a tile whose `blockName` has no entry in the behavior registry,
`updateMarbleStateMachine` sets the state to rolling and changes nothing else:
the marble keeps its position and momentum (it stays in place rather than
falling through). -/
theorem unknown_block_inert (r : ℚ) (marble : MarbleStateMachine)
    (trackPieces : List TrackPiece) (currentTrack : TrackPiece)
    (hb : marble.state ≠ MarbleStateType.behind)
    (htrack : getTrackAt marble.gridPosition trackPieces = some currentTrack)
    (hbeh : getBlockBehavior currentTrack.blockName = none) :
    updateMarbleStateMachine r marble trackPieces =
      { marble with state := MarbleStateType.rolling } := by
  unfold updateMarbleStateMachine
  rw [if_neg hb]
  simp [htrack, hb, hbeh]

/-- Claim C1 (amended) witness: the counterexample configuration satisfies the
amended description. -/
theorem unknown_block_inert_witness :
    updateMarbleStateMachine 0
      ⟨"m", ⟨0, 0⟩, MarbleStateType.falling, MomentumDirection.zero, 0,
        some 100, none⟩
      [⟨⟨0, 0⟩, "UnknownBlock", "", none⟩] =
      { (⟨"m", ⟨0, 0⟩, MarbleStateType.falling, MomentumDirection.zero, 0,
          some 100, none⟩ : MarbleStateMachine) with
          state := MarbleStateType.rolling } :=
  unknown_block_inert 0
    ⟨"m", ⟨0, 0⟩, MarbleStateType.falling, MomentumDirection.zero, 0,
      some 100, none⟩
    [⟨⟨0, 0⟩, "UnknownBlock", "", none⟩]
    ⟨⟨0, 0⟩, "UnknownBlock", "", none⟩
    (by decide) (by decide) (by decide)

/-- Claim C10: the occlusion test never wraps: whenever it reports true, some
tile's position equals the marble position plus one of the six offsets as
plain integers (no wrapping); and in the concrete seam configuration — a
behind marble stepping to `(-9, -9)` with the single tile at `(10, -10)`,
which is the toroidal wrap of the offset position `(-11, -10)` — the marble
is not occluded and transitions to falling. -/
theorem occlusion_ignores_wrap :
    (∀ (p : GridPosition) (trackPieces : List TrackPiece),
      isMarbleOccluded p trackPieces = true →
        ∃ t ∈ trackPieces,
          ∃ o ∈ ([⟨-1, 0⟩, ⟨0, -1⟩, ⟨-1, -1⟩, ⟨-2, -1⟩, ⟨-1, -2⟩, ⟨-2, -2⟩] :
              List GridPosition),
            t.position.x = p.x + o.x ∧ t.position.y = p.y + o.y) ∧
    wrapGridPosition ⟨-11, -10⟩ = ⟨10, -10⟩ ∧
    isMarbleOccluded ⟨-9, -9⟩
      [⟨⟨10, -10⟩, "StrightX", "/sprites/isometric-cubes/StrightX.png", none⟩] =
      false ∧
    (updateMarbleStateMachine 0
      ⟨"m", ⟨-10, -10⟩, MarbleStateType.behind, MomentumDirection.zero, 0,
        some 100, some ⟨-10, -10⟩⟩
      [⟨⟨10, -10⟩, "StrightX", "/sprites/isometric-cubes/StrightX.png", none⟩]).state =
      MarbleStateType.falling ∧
    (updateMarbleStateMachine 0
      ⟨"m", ⟨-10, -10⟩, MarbleStateType.behind, MomentumDirection.zero, 0,
        some 100, some ⟨-10, -10⟩⟩
      [⟨⟨10, -10⟩, "StrightX", "/sprites/isometric-cubes/StrightX.png", none⟩]).gridPosition =
      ⟨-9, -9⟩ := by
  refine ⟨?_, by decide, by decide, by decide, by decide⟩
  intro p trackPieces hocc
  simp only [isMarbleOccluded, List.any_eq_true, occlusionOffsets] at hocc
  obtain ⟨o, ho, hsome⟩ := hocc
  simp only [getTrackAt, List.find?_isSome] at hsome
  obtain ⟨t, ht, hpred⟩ := hsome
  simp only [Bool.and_eq_true, beq_iff_eq] at hpred
  exact ⟨t, ht, o, by simpa using ho, hpred.1, hpred.2⟩

/-- Claim C10 witness: instantiation of the no-wrap direction at `p = (0, 0)`
with a single occluding tile at `(-1, 0)`. -/
theorem occlusion_ignores_wrap_witness :
    ∃ t ∈ ([⟨⟨-1, 0⟩, "StrightX", "/sprites/isometric-cubes/StrightX.png",
        none⟩] : List TrackPiece),
      ∃ o ∈ ([⟨-1, 0⟩, ⟨0, -1⟩, ⟨-1, -1⟩, ⟨-2, -1⟩, ⟨-1, -2⟩, ⟨-2, -2⟩] :
          List GridPosition),
        t.position.x = (0 : Int) + o.x ∧ t.position.y = (0 : Int) + o.y :=
  occlusion_ignores_wrap.1 ⟨0, 0⟩
    [⟨⟨-1, 0⟩, "StrightX", "/sprites/isometric-cubes/StrightX.png", none⟩]
    (by decide)

end IsoMarble
